import Mathlib

/-!
Verification of the delegated transaction builder and price/PnL pipeline
of the `yolo` backend (`backend/app/services/avantis.py` and
`backend/app/services/price_feed.py`).

Modelling conventions (shallow embedding):
* Python `float` amounts (prices, collateral) are modelled as exact
  rationals `ℚ`; Python `int` fields as `ℤ`/`ℕ`.
* Python `int(x)` (truncation toward zero) is `pyInt`.
* A Python function that can raise is modelled as `Except PyError _`;
  a caught exception that results in a `return None` / `return []`
  is modelled by the returned value itself.
* `UnsignedTx.value` is a hex string in the source (`hex(fee)`, `"0x0"`);
  since `hex` is injective on integers we model the field by the
  integer it encodes.
* External collaborators (the Avantis SDK transaction builder, the web3
  ABI encoder, the fee oracle, the Pyth price feed, the chain RPC) are
  modelled as explicit parameters/outcome values, per the spec which
  treats them as capability interfaces.
-/

/-- Python `int(x)` on a rational: truncation toward zero. -/
def pyInt (x : ℚ) : ℤ := x.num.tdiv x.den

/-- Errors raised by the embedded Python code. -/
inductive PyError where
  /-- Python `ZeroDivisionError`. -/
  | zeroDivisionError : PyError
  /-- Python `ValueError(msg)`. -/
  | valueError (msg : String) : PyError
  /-- An exception propagating out of an SDK / collaborator call. -/
  | sdkError (msg : String) : PyError
  deriving DecidableEq, Repr

/-- `USDC_ADDRESS` constant from `avantis.py`. -/
def USDC_ADDRESS : String := "0x833589fCD6eDb6E08f4c7C32D4f71b54bdA02913"

/-- `APPROVE_SELECTOR` constant from `avantis.py` (ERC20 approve). -/
def APPROVE_SELECTOR : String := "0x095ea7b3"

/-- `MAX_UINT256` constant from `avantis.py` (64 hex chars, no prefix). -/
def MAX_UINT256 : String :=
  "ffffffffffffffffffffffffffffffffffffffffffffffffffffffffffffffff"

/-- `UnsignedTx` from `app/models/schemas.py` (value as the integer its
hex string encodes). -/
structure UnsignedTx where
  «to» : String
  data : String
  value : ℤ
  chain_id : ℕ
  deriving DecidableEq, Repr

/-- `Trade` read model from `app/models/schemas.py`. -/
structure Trade where
  trade_index : ℕ
  pair_index : ℕ
  pair : String
  collateral : ℚ
  leverage : ℤ
  is_long : Bool
  open_price : ℚ
  tp : ℚ
  sl : ℚ
  opened_at : ℤ
  deriving DecidableEq, Repr

/-- `AvantisService.calculate_take_profit` (`avantis.py` lines 115-135).
`target_profit_pct = 1.0 / leverage`; long: `entry * (1 + t)`, short:
`entry * (1 - t)`.  Python raises `ZeroDivisionError` at `leverage = 0`;
there is no other validation of `leverage`. -/
def calculate_take_profit (entry_price : ℚ) (is_long : Bool) (leverage : ℤ) :
    Except PyError ℚ :=
  if leverage = 0 then .error .zeroDivisionError
  else
    let target_profit_pct : ℚ := 1 / (leverage : ℚ)
    if is_long then .ok (entry_price * (1 + target_profit_pct))
    else .ok (entry_price * (1 - target_profit_pct))

/-- `PRICE_DECIMALS = 10**8` from `build_open_trade_tx_delegate`
(`avantis.py` line 220): Avantis uses 8 decimals for prices. -/
def PRICE_DECIMALS : ℚ := 10 ^ 8

/-- `COLLATERAL_DECIMALS = 10**6` from `build_open_trade_tx_delegate`
(`avantis.py` line 225): USDC has 6 decimals. -/
def COLLATERAL_DECIMALS : ℚ := 10 ^ 6

/-- The `trade_input_tuple` built in the manual-encoding fallback of
`build_open_trade_tx_delegate` (`avantis.py` lines 230-240): contract
struct order trader, openPrice, pairIndex, collateralInTrade, isLong,
leverage, index, tp, sl. -/
structure TradeTuple where
  trader : String
  open_price_scaled : ℤ
  pair_index : ℕ
  collateral_scaled : ℤ
  is_long : Bool
  leverage : ℤ
  index : ℕ
  tp_scaled : ℤ
  sl : ℤ
  deriving DecidableEq, Repr

/-- Construction of `trade_input_tuple` from `avantis.py` lines 219-240:
`open_price_scaled = int(open_price * PRICE_DECIMALS)`,
`tp_scaled = int(tp * PRICE_DECIMALS)`,
`collateral_scaled = int(collateral * COLLATERAL_DECIMALS)`,
`index = 0`, `sl = 0`. -/
def openTradeTuple (trader : String) (pair_index : ℕ) (leverage : ℤ)
    (is_long : Bool) (collateral : ℚ) (open_price : ℚ) (tp : ℚ) : TradeTuple :=
  { trader := trader
    open_price_scaled := pyInt (open_price * PRICE_DECIMALS)
    pair_index := pair_index
    collateral_scaled := pyInt (collateral * COLLATERAL_DECIMALS)
    is_long := is_long
    leverage := leverage
    index := 0
    tp_scaled := pyInt (tp * PRICE_DECIMALS)
    sl := 0 }

/-- Outcome of the SDK call `client.trade.build_trade_open_tx` wrapped in
`asyncio.wait_for(..., timeout=10.0)` (`avantis.py` lines 179-194). -/
inductive SdkBuildResult where
  /-- SDK returned a tx dict with calldata and native value. -/
  | ok (calldata : String) (value : ℤ) : SdkBuildResult
  /-- `asyncio.TimeoutError`: fall back to manual encoding. -/
  | timeout : SdkBuildResult

/-- Outcome of `client.trade.get_trade_execution_fee` (fee oracle). -/
inductive FeeResult where
  | ok (fee : ℤ) : FeeResult
  /-- The fee oracle call raised an exception. -/
  | err : FeeResult

/-- External collaborators consumed by `build_open_trade_tx_delegate`:
the SDK builder outcome, the fee oracle outcome, the Trading contract
address, the `TradeInputOrderType.MARKET_ZERO_FEE.value` constant, and
the web3 ABI encoders (`Trading.functions.openTrade(...)` and
`Trading.functions.delegatedAction(...)`, each `_encode_transaction_data`). -/
structure OpenTxEnv where
  sdkBuild : SdkBuildResult
  feeOracle : FeeResult
  tradingAddress : String
  marketZeroFeeOrderType : ℕ
  encodeOpenTrade : TradeTuple → ℕ → ℕ → String
  encodeDelegatedAction : String → String → String
  chainId : ℕ

/-- The hardcoded fallback `execution_fee = 1000000000000000  # 0.001 ETH
default` from `avantis.py` line 207. -/
def DEFAULT_EXECUTION_FEE : ℤ := 1000000000000000

/-- `AvantisService.build_open_trade_tx_delegate` (`avantis.py` lines
137-275).  Computes the take profit, then: on SDK success uses the SDK
calldata and value; on SDK timeout falls back to manual encoding, where
the execution fee comes from the fee oracle or — when that call fails —
the hardcoded default.  Either way the inner calldata is wrapped in
`delegatedAction(trader, inner)` and assembled into an `UnsignedTx` whose
value is the execution fee. -/
def build_open_trade_tx_delegate (env : OpenTxEnv) (trader : String)
    (pair_index : ℕ) (leverage : ℤ) (is_long : Bool) (collateral : ℚ)
    (open_price : ℚ) : Except PyError UnsignedTx := do
  let tp ← calculate_take_profit open_price is_long leverage
  match env.sdkBuild with
  | .ok inner_calldata execution_fee =>
      let delegate_calldata := env.encodeDelegatedAction trader inner_calldata
      .ok { «to» := env.tradingAddress, data := delegate_calldata,
            value := execution_fee, chain_id := env.chainId }
  | .timeout =>
      let execution_fee : ℤ :=
        match env.feeOracle with
        | .ok f => f
        | .err => DEFAULT_EXECUTION_FEE
      let tuple := openTradeTuple trader pair_index leverage is_long
        collateral open_price tp
      let inner_calldata :=
        env.encodeOpenTrade tuple env.marketZeroFeeOrderType 1
      let delegate_calldata := env.encodeDelegatedAction trader inner_calldata
      .ok { «to» := env.tradingAddress, data := delegate_calldata,
            value := execution_fee, chain_id := env.chainId }

/-- External collaborators consumed by `build_close_trade_tx_delegate`:
fee oracle, Trading contract address, and the web3 encoders for
`closeTradeMarket` and `delegatedAction`. -/
structure CloseTxEnv where
  feeOracle : FeeResult
  tradingAddress : String
  encodeCloseTrade : ℤ → ℤ → ℤ → String
  encodeDelegatedAction : String → String → String
  chainId : ℕ

/-- `AvantisService.build_close_trade_tx_delegate` (`avantis.py` lines
277-352).  Validates `pair_index ≥ 0`, `trade_index ≥ 0`,
`collateral_to_close > 0`; scales the collateral with
`int(collateral_to_close * 10**6)`; fetches the execution fee (an oracle
failure propagates — the outer handler re-raises); encodes
`closeTradeMarket(pair_index, trade_index, collateral_usdc)` and wraps it
in `delegatedAction(trader, inner)`. -/
def build_close_trade_tx_delegate (env : CloseTxEnv) (trader : String)
    (pair_index trade_index : ℤ) (collateral_to_close : ℚ) :
    Except PyError UnsignedTx :=
  if pair_index < 0 then
    .error (.valueError "Invalid pair_index. Must be >= 0")
  else if trade_index < 0 then
    .error (.valueError "Invalid trade_index. Must be >= 0")
  else if collateral_to_close ≤ 0 then
    .error (.valueError "Invalid collateral_to_close. Must be > 0")
  else
    let collateral_usdc := pyInt (collateral_to_close * COLLATERAL_DECIMALS)
    match env.feeOracle with
    | .err => .error (.sdkError "get_trade_execution_fee failed")
    | .ok execution_fee =>
        let inner_calldata :=
          env.encodeCloseTrade pair_index trade_index collateral_usdc
        let delegate_calldata :=
          env.encodeDelegatedAction trader inner_calldata
        .ok { «to» := env.tradingAddress, data := delegate_calldata,
              value := execution_fee, chain_id := env.chainId }

/-- `self._cache_ttl = 5  # 5 seconds cache` (`price_feed.py` line 20). -/
def CACHE_TTL : ℤ := 5

/-- The price cache `self._cache: dict[str, tuple[float, int]]`
(`price_feed.py` line 19), as an association list whose most recent
write for a key shadows earlier entries (Python dict assignment). -/
abbrev PriceCache := List (String × ℚ × ℤ)

/-- Outcome of `feed_client.get_latest_price_updates([pair])` under
`asyncio.wait_for(..., timeout=10.0)` (`price_feed.py` lines 80-94). -/
inductive FetchOutcome where
  /-- Response arrived with a nonempty `parsed` list; its first item has
  this `converted_price`. -/
  | ok (price : ℚ) : FetchOutcome
  /-- `asyncio.TimeoutError` after the 10-second bound. -/
  | timeout : FetchOutcome
  /-- Response arrived but `parsed` was empty/None: the function falls
  through to `return None`. -/
  | emptyResponse : FetchOutcome
  /-- Some other exception was raised (feeds loading, SDK call, ...):
  caught by the outer handler, which returns None. -/
  | error : FetchOutcome

/-- Result of one `get_price` call: the returned value (`None` models
the price-unavailable outcome), the cache state after the call, and
whether a fetch against the price feed was issued. -/
structure GetPriceResult where
  result : Option (ℚ × ℤ)
  cache : PriceCache
  fetched : Bool
  deriving DecidableEq, Repr

/-- The fetch part of `PriceFeedService.get_price` (`price_feed.py`
lines 54-123): issue the bounded-wait fetch; on success store and return
`(price, int(time.time()))`; on timeout return the cached value if one
exists, else raise — the raise is caught by the enclosing handler which
returns None; any other failure also ends in the handler's None. -/
def get_price_fetch (cache : PriceCache) (pair : String)
    (fetch : FetchOutcome) (now₁ : ℤ) : GetPriceResult :=
  match fetch with
  | .ok price => ⟨some (price, now₁), (pair, price, now₁) :: cache, true⟩
  | .timeout =>
      match cache.lookup pair with
      | some (cached_price, cached_time) =>
          ⟨some (cached_price, cached_time), cache, true⟩
      | none => ⟨none, cache, true⟩
  | .emptyResponse => ⟨none, cache, true⟩
  | .error => ⟨none, cache, true⟩

/-- `PriceFeedService.get_price` (`price_feed.py` lines 30-123).
`now₀` is the `time.time()` of the cache check, `now₁` the time a
successful fetch is stamped with.  Cache hit within TTL returns the
cached pair without fetching; otherwise the fetch is issued. -/
def get_price (cache : PriceCache) (pair : String) (now₀ : ℤ)
    (fetch : FetchOutcome) (now₁ : ℤ) : GetPriceResult :=
  match cache.lookup pair with
  | some (cached_price, cached_time) =>
      if now₀ - cached_time < CACHE_TTL then
        ⟨some (cached_price, cached_time), cache, false⟩
      else get_price_fetch cache pair fetch now₁
  | none => get_price_fetch cache pair fetch now₁

/-- `AvantisService.calculate_pnl` (`avantis.py` lines 532-560).
`position_size_usdc` defaults to `collateral * leverage` when not
provided; `price_change_pct` is directional; `net = gross - margin_fee`;
percentage is relative to collateral. -/
def calculate_pnl (trade : Trade) (current_price : ℚ)
    (position_size_usdc : Option ℚ) (margin_fee : ℚ) : ℚ × ℚ :=
  let position_size_usdc :=
    position_size_usdc.getD (trade.collateral * (trade.leverage : ℚ))
  let price_change_pct :=
    if trade.is_long then
      (current_price - trade.open_price) / trade.open_price
    else (trade.open_price - current_price) / trade.open_price
  let gross_pnl := position_size_usdc * price_change_pct
  let net_pnl := gross_pnl - margin_fee
  let pnl_percentage := (net_pnl / trade.collateral) * 100
  (net_pnl, pnl_percentage)

/-- Trade data as read from the chain via `client.trade.get_trades`
(the SDK's `trade` records, `avantis.py` lines 381-396). -/
structure RawTrade where
  trade_index : ℕ
  pair_index : ℕ
  open_collateral : ℚ
  leverage : ℤ
  is_long : Bool
  open_price : ℚ
  tp : ℚ
  sl : ℚ
  deriving DecidableEq, Repr

/-- Outcome of a chain read (`client.trade.get_trades(trader)`). -/
inductive ChainReadResult (α : Type) where
  | ok (val : α) : ChainReadResult α
  /-- The read raised an exception carrying this message. -/
  | err (msg : String) : ChainReadResult α

/-- `AvantisService.get_trades` (`avantis.py` lines 374-403): maps the
SDK trades into `Trade` records (pair name from the SDK pairs cache,
`opened_at = 0`); the enclosing `except Exception` handler prints the
error and returns the empty list. -/
def get_trades (pair_name_of_index : ℕ → String)
    (fetch : ChainReadResult (List RawTrade)) : List Trade :=
  match fetch with
  | .err _ => []
  | .ok trades =>
      trades.map fun t =>
        { trade_index := t.trade_index, pair_index := t.pair_index,
          pair := pair_name_of_index t.pair_index,
          collateral := t.open_collateral, leverage := t.leverage,
          is_long := t.is_long, open_price := t.open_price,
          tp := t.tp, sl := t.sl, opened_at := 0 }

/-- The pair-symbol correction in `get_trades_with_pnl` (`avantis.py`
lines 466-479): the symbol is reassigned from the open-price magnitude,
falling back to the SDK-derived name outside all four ranges. -/
def correct_pair_name (open_price : ℚ) (sdk_pair_name : String) : String :=
  if open_price > 50000 then "BTC/USD"
  else if 1000 < open_price ∧ open_price < 5000 then "ETH/USD"
  else if 50 < open_price ∧ open_price < 500 then "SOL/USD"
  else if 1 / 10 < open_price ∧ open_price < 5 then "XRP/USD"
  else sdk_pair_name

/-- One entry of the `get_trades_with_pnl` result list. -/
structure PnlEntry where
  trade : Trade
  gross_pnl : ℚ
  gross_pnl_percentage : ℚ
  deriving DecidableEq, Repr

/-- External collaborators of `get_trades_with_pnl`: the SDK pairs-cache
name lookup, the single-pair refetch
(`price_feed_service.get_prices([pair_name])`, None when the returned
dict is empty), and the `pair_names` list the batch fetch was issued
for. -/
structure PnlEnv where
  pair_name_of_index : ℕ → String
  refetch : String → Option (ℚ × ℤ)
  pair_names : List String

/-- One iteration of the `for extended_trade in trades` loop of
`get_trades_with_pnl` (`avantis.py` lines 461-523): corrects the pair
symbol from the open price, looks the current price up under the
corrected symbol (refetching — and updating the prices dict — when it is
missing and was not in the batch), falls back to the open price when no
price is available, and computes gross PnL. -/
def pnl_step (env : PnlEnv) (prices : List (String × ℚ × ℤ))
    (r : RawTrade) : PnlEntry × List (String × ℚ × ℤ) :=
  let sdk_pair_name := env.pair_name_of_index r.pair_index
  let open_price := r.open_price
  let pair_name := correct_pair_name open_price sdk_pair_name
  let fetched :=
    match prices.lookup pair_name with
    | some pd => (some pd, prices)
    | none =>
        if pair_name ∈ env.pair_names then (none, prices)
        else
          match env.refetch pair_name with
          | some pd => (some pd, (pair_name, pd) :: prices)
          | none => (none, prices)
  let current_price :=
    match fetched.1 with
    | some pd => pd.1
    | none => open_price
  let position_size := r.open_collateral * (r.leverage : ℚ)
  let price_change_pct :=
    if r.is_long then (current_price - open_price) / open_price
    else (open_price - current_price) / open_price
  let gross_pnl := position_size * price_change_pct
  let gross_pnl_percentage := (gross_pnl / r.open_collateral) * 100
  let trade : Trade :=
    { trade_index := r.trade_index, pair_index := r.pair_index,
      pair := pair_name, collateral := r.open_collateral,
      leverage := r.leverage, is_long := r.is_long,
      open_price := open_price, tp := r.tp, sl := r.sl, opened_at := 0 }
  ({ trade := trade, gross_pnl := gross_pnl,
     gross_pnl_percentage := gross_pnl_percentage }, fetched.2)

/-- The `for` loop of `get_trades_with_pnl`, threading the prices dict
(which a refetch updates) through the iterations. -/
def pnl_loop (env : PnlEnv) (prices : List (String × ℚ × ℤ)) :
    List RawTrade → List PnlEntry
  | [] => []
  | r :: rs => (pnl_step env prices r).1 ::
      pnl_loop env (pnl_step env prices r).2 rs

/-- `AvantisService.get_trades_with_pnl` (`avantis.py` lines 440-530):
on any exception the enclosing handler prints and returns `[]`;
otherwise runs the per-trade loop. -/
def get_trades_with_pnl (env : PnlEnv)
    (prices : List (String × ℚ × ℤ))
    (fetch : ChainReadResult (List RawTrade)) : List PnlEntry :=
  match fetch with
  | .err _ => []
  | .ok trades => pnl_loop env prices trades

/-- Python `str.lower()` (ASCII case fold; address strings are ASCII). -/
def pyLower (s : String) : String := String.mk (s.data.map Char.toLower)

/-- Python `str.replace(pat, rep)` on char lists: replaces every
non-overlapping occurrence, scanning left to right. -/
def replaceList (s pat rep : List Char) : List Char :=
  match s with
  | [] => []
  | c :: rest =>
    if h : pat ≠ [] ∧ pat.isPrefixOf (c :: rest) then
      rep ++ replaceList ((c :: rest).drop pat.length) pat rep
    else c :: replaceList rest pat rep
termination_by s.length
decreasing_by
  · have hp : 0 < pat.length := List.length_pos.mpr h.1
    simp
    omega
  · simp

/-- Python `str.replace(pat, rep)`. -/
def pyReplace (s pat rep : String) : String :=
  String.mk (replaceList s.data pat.data rep.data)

/-- Python `str.zfill(width)`: left-fill with ASCII zeros up to `width`,
keeping a leading sign character in front of the padding. -/
def pyZfill (s : String) (width : ℕ) : String :=
  if width ≤ s.length then s
  else
    let pad := List.replicate (width - s.length) '0'
    match s.data with
    | [] => String.mk pad
    | c :: rest =>
        if c = '+' ∨ c = '-' then String.mk (c :: (pad ++ rest))
        else String.mk (pad ++ c :: rest)

/-- `AvantisService.build_usdc_approval_tx` (`avantis.py` lines 588-603):
`spender_padded = spender.lower().replace("0x", "").zfill(64)`;
`data = f"{APPROVE_SELECTOR}{spender_padded}{MAX_UINT256}"`; recipient is
the USDC contract and the native value is zero (`"0x0"`). -/
def build_usdc_approval_tx (chain_id : ℕ) (spender : String) : UnsignedTx :=
  let spender_padded := pyZfill (pyReplace (pyLower spender) "0x" "") 64
  { «to» := USDC_ADDRESS,
    data := APPROVE_SELECTOR ++ spender_padded ++ MAX_UINT256,
    value := 0, chain_id := chain_id }

/-- The hexadecimal digits: the well-formedness alphabet of the 40-char
body of an Ethereum address. -/
def HEX_DIGITS : List Char := "0123456789abcdefABCDEF".data

/-- C3: for every entry price `P > 0` and leverage `L > 0`,
`calculate_take_profit` returns `P * (1 + 1/L)` for a long and
`P * (1 - 1/L)` for a short; at entry 60000, leverage 100, long it
returns 60600. -/
theorem c3_take_profit_formula (P : ℚ) (L : ℤ) (hP : 0 < P) (hL : 0 < L) :
    calculate_take_profit P true L = .ok (P * (1 + 1 / (L : ℚ))) ∧
    calculate_take_profit P false L = .ok (P * (1 - 1 / (L : ℚ))) ∧
    calculate_take_profit 60000 true 100 = .ok 60600 := by
  refine ⟨?_, ?_, ?_⟩
  · simp [calculate_take_profit, hL.ne']
  · simp [calculate_take_profit, hL.ne']
  · norm_num [calculate_take_profit]

/-- Witness for C3 at `P = 60000`, `L = 100`. -/
theorem c3_take_profit_formula_witness :
    calculate_take_profit 60000 true 100 = .ok (60000 * (1 + 1 / (100 : ℚ))) :=
  (c3_take_profit_formula 60000 100 (by norm_num) (by norm_num)).1

/-- C4 counterexample: at leverage `-1 ≤ 0` the code returns a price
(`100 * (1 + 1/(-1)) = 0`) instead of failing with `InvalidLeverage`. -/
theorem c4_counterexample :
    calculate_take_profit 100 true (-1) = .ok 0 := by
  norm_num [calculate_take_profit]

/-- C4 amended: `calculate_take_profit` performs no leverage validation:
for `leverage < 0` it returns `entry * (1 ± 1/leverage)` as if it were
valid, and only at `leverage = 0` does it fail — with a division-by-zero
error, not a typed `InvalidLeverage`. -/
theorem c4_no_leverage_validation (P : ℚ) (L : ℤ) (hL : L < 0) :
    calculate_take_profit P true L = .ok (P * (1 + 1 / (L : ℚ))) ∧
    calculate_take_profit P false L = .ok (P * (1 - 1 / (L : ℚ))) ∧
    calculate_take_profit P true 0 = .error .zeroDivisionError ∧
    calculate_take_profit P false 0 = .error .zeroDivisionError := by
  refine ⟨?_, ?_, ?_, ?_⟩
  · simp [calculate_take_profit, hL.ne]
  · simp [calculate_take_profit, hL.ne]
  · simp [calculate_take_profit]
  · simp [calculate_take_profit]

/-- Witness for C4 amended at `P = 100`, `L = -1`. -/
theorem c4_no_leverage_validation_witness :
    calculate_take_profit 100 true (-1) = .ok (100 * (1 + 1 / ((-1 : ℤ) : ℚ))) :=
  (c4_no_leverage_validation 100 (-1) (by norm_num)).1

/-- Truncation toward zero agrees with `⌊·⌋` on nonnegative rationals. -/
theorem pyInt_eq_floor {x : ℚ} (hx : 0 ≤ x) : pyInt x = ⌊x⌋ := by
  rw [pyInt, Rat.floor_def]
  exact Int.tdiv_eq_ediv (Rat.num_nonneg.mpr hx) (by positivity)

/-- C1 counterexample: for collateral `0.0000019` USDC the code scales to
`int(1.9) = 1`, while round-to-nearest gives `2`. -/
theorem c1_counterexample :
    (openTradeTuple "0xT" 0 100 true (19 / 10000000) 60000 60600).collateral_scaled
      = 1 ∧
    round ((19 / 10000000 : ℚ) * 10 ^ 6) = 2 := by
  constructor
  · simp only [openTradeTuple, COLLATERAL_DECIMALS]
    rw [pyInt_eq_floor (by norm_num)]
    norm_num
  · norm_num [round_eq]

/-- C1 amended: the fixed-point scaling applied in the manual encoding
path truncates toward zero (equivalently, takes the floor of the
nonnegative product) instead of rounding to nearest; prices and
take-profit use 8 decimal places and USDC collateral uses 6, both in the
open-trade tuple and in the closeTradeMarket calldata. -/
theorem c1_scaling_truncates (trader : String) (pair_index : ℕ)
    (leverage : ℤ) (is_long : Bool) (collateral open_price tp : ℚ)
    (hc : 0 ≤ collateral) (hp : 0 ≤ open_price) (ht : 0 ≤ tp)
    (env : CloseTxEnv) (t : String) (pi ti : ℤ) (c : ℚ) (fee : ℤ)
    (hpi : 0 ≤ pi) (hti : 0 ≤ ti) (hcc : 0 < c)
    (hfee : env.feeOracle = .ok fee) :
    (openTradeTuple trader pair_index leverage is_long collateral
        open_price tp).open_price_scaled = ⌊open_price * 10 ^ 8⌋ ∧
    (openTradeTuple trader pair_index leverage is_long collateral
        open_price tp).tp_scaled = ⌊tp * 10 ^ 8⌋ ∧
    (openTradeTuple trader pair_index leverage is_long collateral
        open_price tp).collateral_scaled = ⌊collateral * 10 ^ 6⌋ ∧
    build_close_trade_tx_delegate env t pi ti c =
      .ok { «to» := env.tradingAddress,
            data := env.encodeDelegatedAction t
              (env.encodeCloseTrade pi ti ⌊c * 10 ^ 6⌋),
            value := fee, chain_id := env.chainId } := by
  refine ⟨?_, ?_, ?_, ?_⟩
  · simp only [openTradeTuple, PRICE_DECIMALS]
    exact pyInt_eq_floor (by positivity)
  · simp only [openTradeTuple, PRICE_DECIMALS]
    exact pyInt_eq_floor (by positivity)
  · simp only [openTradeTuple, COLLATERAL_DECIMALS]
    exact pyInt_eq_floor (by positivity)
  · simp only [build_close_trade_tx_delegate, COLLATERAL_DECIMALS, hfee,
      if_neg (not_lt.mpr hpi), if_neg (not_lt.mpr hti),
      if_neg (not_le.mpr hcc)]
    rw [pyInt_eq_floor (show (0 : ℚ) ≤ c * 10 ^ 6 by positivity)]

/-- Witness for C1 amended at concrete inputs. -/
theorem c1_scaling_truncates_witness :
    (openTradeTuple "0xT" 0 100 true (5 / 2) 60000 60600).open_price_scaled
        = ⌊(60000 : ℚ) * 10 ^ 8⌋ ∧
    build_close_trade_tx_delegate
        { feeOracle := .ok 7, tradingAddress := "0xA",
          encodeCloseTrade := fun _ _ _ => "cc",
          encodeDelegatedAction := fun _ _ => "dd", chainId := 8453 }
        "0xT" 0 0 (5 / 2) =
      .ok { «to» := "0xA", data := "dd", value := 7, chain_id := 8453 } := by
  have h := c1_scaling_truncates "0xT" 0 100 true (5 / 2) 60000 60600
    (by norm_num) (by norm_num) (by norm_num)
    { feeOracle := .ok 7, tradingAddress := "0xA",
      encodeCloseTrade := fun _ _ _ => "cc",
      encodeDelegatedAction := fun _ _ => "dd", chainId := 8453 }
    "0xT" 0 0 (5 / 2) 7 (by norm_num) (by norm_num) (by norm_num) rfl
  exact ⟨h.1, h.2.2.2⟩

/-- C2 counterexample: with the SDK builder timing out and the fee oracle
failing, `build_open_trade_tx_delegate` succeeds and puts the hardcoded
default fee `1000000000000000` wei into the transaction value — it does
not fail with `FeeUnavailable`. -/
theorem c2_counterexample :
    build_open_trade_tx_delegate
      { sdkBuild := .timeout, feeOracle := .err, tradingAddress := "0xA",
        marketZeroFeeOrderType := 2,
        encodeOpenTrade := fun _ _ _ => "inner",
        encodeDelegatedAction := fun _ _ => "outer", chainId := 8453 }
      "0xT" 0 100 true 10 60000 =
    .ok { «to» := "0xA", data := "outer",
          value := 1000000000000000, chain_id := 8453 } := by
  rfl

/-- C2 amended: when the SDK build times out and the execution fee cannot
be obtained from the fee oracle, the assembler substitutes the hardcoded
default of `10^15` wei (0.001 ETH) into the transaction's native value
and succeeds, rather than failing. -/
theorem c2_default_fee_substituted (env : OpenTxEnv) (trader : String)
    (pair_index : ℕ) (leverage : ℤ) (is_long : Bool)
    (collateral open_price : ℚ) (hsdk : env.sdkBuild = .timeout)
    (hfee : env.feeOracle = .err) (hlev : leverage ≠ 0) :
    ∃ tx, build_open_trade_tx_delegate env trader pair_index leverage
        is_long collateral open_price = .ok tx ∧
      tx.value = 1000000000000000 := by
  obtain ⟨t, ht⟩ : ∃ t, calculate_take_profit open_price is_long leverage
      = .ok t := by
    rw [calculate_take_profit, if_neg hlev]
    cases is_long
    · exact ⟨_, rfl⟩
    · exact ⟨_, rfl⟩
  refine ⟨{ «to» := env.tradingAddress,
            data := env.encodeDelegatedAction trader
              (env.encodeOpenTrade
                (openTradeTuple trader pair_index leverage is_long
                  collateral open_price t)
                env.marketZeroFeeOrderType 1),
            value := DEFAULT_EXECUTION_FEE, chain_id := env.chainId },
    ?_, rfl⟩
  simp only [build_open_trade_tx_delegate, ht, hsdk, hfee]
  rfl

/-- Witness for C2 amended at a concrete environment. -/
theorem c2_default_fee_substituted_witness :
    ∃ tx, build_open_trade_tx_delegate
        { sdkBuild := .timeout, feeOracle := .err, tradingAddress := "0xA",
          marketZeroFeeOrderType := 2,
          encodeOpenTrade := fun _ _ _ => "inner",
          encodeDelegatedAction := fun _ _ => "outer", chainId := 8453 }
        "0xT" 0 100 true 10 60000 = .ok tx ∧
      tx.value = 1000000000000000 :=
  c2_default_fee_substituted _ "0xT" 0 100 true 10 60000 rfl rfl
    (by norm_num)

/-- Whatever value `get_price` returns is in its resulting cache. -/
theorem get_price_result_cached (cache : PriceCache) (pair : String)
    (now₀ : ℤ) (fetch : FetchOutcome) (now₁ : ℤ) (p : ℚ) (t : ℤ)
    (h : (get_price cache pair now₀ fetch now₁).result = some (p, t)) :
    (get_price cache pair now₀ fetch now₁).cache.lookup pair
      = some (p, t) := by
  unfold get_price get_price_fetch at h ⊢
  cases hl : cache.lookup pair with
  | some v =>
      obtain ⟨p0, t0⟩ := v
      rw [hl] at h
      cases fetch <;> by_cases hts : now₀ - t0 < CACHE_TTL <;>
        simp_all [List.lookup] <;>
        rw [if_neg (not_lt.mpr hts)] <;>
        simp_all [List.lookup]
  | none =>
      rw [hl] at h
      cases fetch <;> simp_all [List.lookup]

/-- C5: when the price-feed fetch times out, `get_price` returns the
cached value for the symbol whenever one exists — regardless of its
age — and yields the unavailable outcome (None) only when no cached
value exists. -/
theorem c5_timeout_serves_cache (cache : PriceCache) (pair : String)
    (now₀ now₁ : ℤ) :
    (∀ p t, cache.lookup pair = some (p, t) →
      (get_price cache pair now₀ .timeout now₁).result = some (p, t)) ∧
    (cache.lookup pair = none →
      (get_price cache pair now₀ .timeout now₁).result = none) := by
  constructor
  · intro p t hl
    unfold get_price
    rw [hl]
    dsimp only
    by_cases hts : now₀ - t < CACHE_TTL
    · rw [if_pos hts]
    · rw [if_neg hts]
      simp [get_price_fetch, hl]
  · intro hl
    unfold get_price
    rw [hl]
    dsimp only
    simp [get_price_fetch, hl]

/-- Witness for C5: a 3-second-old cached value (stored at t=7, checked
at t=10) is returned on timeout rather than an error; with an empty
cache the timeout yields None. -/
theorem c5_timeout_serves_cache_witness :
    (get_price [("BTC/USD", 100, 7)] "BTC/USD" 10 .timeout 20).result
      = some (100, 7) ∧
    (get_price [] "BTC/USD" 10 .timeout 20).result = none :=
  ⟨(c5_timeout_serves_cache [("BTC/USD", 100, 7)] "BTC/USD" 10 20).1
      100 7 rfl,
    (c5_timeout_serves_cache [] "BTC/USD" 10 20).2 rfl⟩

/-- C6: if a `get_price` call returns a price point with timestamp `t`,
then a second `get_price` call for the same symbol at a time within TTL
of `t` returns the identical `(price, observedAt)` pair, leaves the
cache unchanged, and issues no second fetch. -/
theorem c6_no_refetch_within_ttl (cache : PriceCache) (pair : String)
    (now₀ : ℤ) (f₁ : FetchOutcome) (now₁ : ℤ) (p : ℚ) (t : ℤ)
    (now₂ : ℤ) (f₂ : FetchOutcome) (now₃ : ℤ)
    (h₁ : (get_price cache pair now₀ f₁ now₁).result = some (p, t))
    (h₂ : now₂ - t < CACHE_TTL) :
    get_price (get_price cache pair now₀ f₁ now₁).cache pair now₂ f₂ now₃
      = ⟨some (p, t), (get_price cache pair now₀ f₁ now₁).cache, false⟩ := by
  have hl := get_price_result_cached cache pair now₀ f₁ now₁ p t h₁
  set c₁ : PriceCache := (get_price cache pair now₀ f₁ now₁).cache with hc₁
  unfold get_price
  rw [hl]
  dsimp only
  rw [if_pos h₂]

/-- Witness for C6: a fetch stores `(100, 7)`; a second call at time 10
(within TTL) returns the identical timestamp with no fetch. -/
theorem c6_no_refetch_within_ttl_witness :
    get_price (get_price [] "BTC/USD" 0 (.ok 100) 7).cache "BTC/USD"
        10 .timeout 20
      = ⟨some (100, 7), (get_price [] "BTC/USD" 0 (.ok 100) 7).cache,
          false⟩ :=
  c6_no_refetch_within_ttl [] "BTC/USD" 0 (.ok 100) 7 100 7 10 .timeout 20
    rfl (by decide)

/-- C8: `calculate_pnl` is sign-symmetric: with open price `P > 0`,
collateral `K > 0`, margin fee 0 and default position size, a long and a
short with identical `P`, `K`, `L` produce opposite PnL (and opposite
percentage) for the same current price `C`, following
`grossPnL = K * L * priceChangePct`. -/
theorem c8_pnl_sign_symmetric (ti pi : ℕ) (pair : String) (K : ℚ) (L : ℤ)
    (P C tp sl : ℚ) (oa : ℤ) (hP : 0 < P) (hK : 0 < K) :
    (calculate_pnl ⟨ti, pi, pair, K, L, true, P, tp, sl, oa⟩ C none 0).1
        = K * (L : ℚ) * ((C - P) / P) ∧
    (calculate_pnl ⟨ti, pi, pair, K, L, false, P, tp, sl, oa⟩ C none 0).1
        = K * (L : ℚ) * ((P - C) / P) ∧
    (calculate_pnl ⟨ti, pi, pair, K, L, true, P, tp, sl, oa⟩ C none 0).1
        = -(calculate_pnl ⟨ti, pi, pair, K, L, false, P, tp, sl, oa⟩
            C none 0).1 ∧
    (calculate_pnl ⟨ti, pi, pair, K, L, true, P, tp, sl, oa⟩ C none 0).2
        = -(calculate_pnl ⟨ti, pi, pair, K, L, false, P, tp, sl, oa⟩
            C none 0).2 := by
  refine ⟨?_, ?_, ?_, ?_⟩ <;>
    simp only [calculate_pnl, Option.getD_none, if_true, if_false,
      Bool.false_eq_true] <;>
    ring

/-- Witness for C8 at `P = 60000`, `K = 10`, `L = 100`, `C = 61000`. -/
theorem c8_pnl_sign_symmetric_witness :
    (calculate_pnl ⟨0, 0, "BTC/USD", 10, 100, true, 60000, 0, 0, 0⟩
        61000 none 0).1
      = 10 * ((100 : ℤ) : ℚ) * ((61000 - 60000) / 60000) ∧
    (calculate_pnl ⟨0, 0, "BTC/USD", 10, 100, true, 60000, 0, 0, 0⟩
        61000 none 0).1
      = -(calculate_pnl ⟨0, 0, "BTC/USD", 10, 100, false, 60000, 0, 0, 0⟩
          61000 none 0).1 := by
  have h := c8_pnl_sign_symmetric 0 0 "BTC/USD" 10 100 60000 61000 0 0 0
    (by norm_num) (by norm_num)
  exact ⟨h.1, h.2.2.1⟩

/-- C9 counterexample: a chain-read failure while fetching a trader's
open positions is converted into a successful empty result by both
`get_trades` and `get_trades_with_pnl` — it does not propagate. -/
theorem c9_counterexample :
    get_trades (fun _ => "BTC/USD") (.err "ChainReadError") = [] ∧
    get_trades_with_pnl ⟨fun _ => "BTC/USD", fun _ => none, []⟩ []
      (.err "ChainReadError") = [] :=
  ⟨rfl, rfl⟩

/-- C9 amended: every exception raised while fetching a trader's open
positions (chain-read failures included) is caught by `get_trades` and
`get_trades_with_pnl` and converted into a successful empty list, rather
than propagating to the caller. -/
theorem c9_errors_swallowed (pair_name_of_index : ℕ → String)
    (env : PnlEnv) (prices : List (String × ℚ × ℤ)) (msg : String) :
    get_trades pair_name_of_index (.err msg) = [] ∧
    get_trades_with_pnl env prices (.err msg) = [] :=
  ⟨rfl, rfl⟩

/-- C10: in the PnL read flow, each position's reported pair symbol is
reassigned from the open-price magnitude (`> 50000` → BTC/USD;
`1000..5000` → ETH/USD; `50..500` → SOL/USD; `0.1..5` → XRP/USD, all
bounds strict), overriding the pairIndex-derived symbol; only an open
price outside all four ranges falls back to the pairIndex-derived
symbol; and the current price used for the gross PnL is looked up under
the reassigned symbol. -/
theorem c10_pair_reassigned_from_price (env : PnlEnv)
    (prices : List (String × ℚ × ℤ)) (r : RawTrade) :
    (pnl_step env prices r).1.trade.pair
        = correct_pair_name r.open_price
            (env.pair_name_of_index r.pair_index) ∧
    (50000 < r.open_price →
      (pnl_step env prices r).1.trade.pair = "BTC/USD") ∧
    (1000 < r.open_price → r.open_price < 5000 →
      (pnl_step env prices r).1.trade.pair = "ETH/USD") ∧
    (50 < r.open_price → r.open_price < 500 →
      (pnl_step env prices r).1.trade.pair = "SOL/USD") ∧
    (1 / 10 < r.open_price → r.open_price < 5 →
      (pnl_step env prices r).1.trade.pair = "XRP/USD") ∧
    (¬ 50000 < r.open_price →
      ¬ (1000 < r.open_price ∧ r.open_price < 5000) →
      ¬ (50 < r.open_price ∧ r.open_price < 500) →
      ¬ (1 / 10 < r.open_price ∧ r.open_price < 5) →
      (pnl_step env prices r).1.trade.pair
        = env.pair_name_of_index r.pair_index) ∧
    (∀ q ts, prices.lookup (correct_pair_name r.open_price
          (env.pair_name_of_index r.pair_index)) = some (q, ts) →
      (pnl_step env prices r).1.gross_pnl
        = r.open_collateral * (r.leverage : ℚ) *
          (if r.is_long then (q - r.open_price) / r.open_price
           else (r.open_price - q) / r.open_price)) := by
  have hpair : (pnl_step env prices r).1.trade.pair
      = correct_pair_name r.open_price
          (env.pair_name_of_index r.pair_index) := rfl
  refine ⟨hpair, ?_, ?_, ?_, ?_, ?_, ?_⟩
  · intro h1
    rw [hpair, correct_pair_name, if_pos h1]
  · intro h1 h2
    rw [hpair, correct_pair_name,
      if_neg (by linarith : ¬ r.open_price > 50000), if_pos ⟨h1, h2⟩]
  · intro h1 h2
    rw [hpair, correct_pair_name,
      if_neg (by linarith : ¬ r.open_price > 50000),
      if_neg (by rintro ⟨ha, hb⟩; linarith :
        ¬ (1000 < r.open_price ∧ r.open_price < 5000)),
      if_pos ⟨h1, h2⟩]
  · intro h1 h2
    rw [hpair, correct_pair_name,
      if_neg (by linarith : ¬ r.open_price > 50000),
      if_neg (by rintro ⟨ha, hb⟩; linarith :
        ¬ (1000 < r.open_price ∧ r.open_price < 5000)),
      if_neg (by rintro ⟨ha, hb⟩; linarith :
        ¬ (50 < r.open_price ∧ r.open_price < 500)),
      if_pos ⟨h1, h2⟩]
  · intro h1 h2 h3 h4
    rw [hpair, correct_pair_name, if_neg h1, if_neg h2, if_neg h3,
      if_neg h4]
  · intro q ts hq
    simp only [pnl_step]
    rw [hq]

/-- Witness for C10: a position whose open price is 60000 is reported as
BTC/USD (regardless of the pairIndex-derived name), and its gross PnL is
computed from the price stored under the corrected symbol. -/
theorem c10_pair_reassigned_from_price_witness :
    (pnl_step ⟨fun _ => "SDK/PAIR", fun _ => none, []⟩
        [("BTC/USD", 61000, 3)] ⟨0, 2, 10, 100, true, 60000, 0, 0⟩).1.trade.pair
      = "BTC/USD" ∧
    (pnl_step ⟨fun _ => "SDK/PAIR", fun _ => none, []⟩
        [("BTC/USD", 61000, 3)] ⟨0, 2, 10, 100, true, 60000, 0, 0⟩).1.gross_pnl
      = 10 * ((100 : ℤ) : ℚ) *
        (if true then ((61000 : ℚ) - 60000) / 60000
         else ((60000 : ℚ) - 61000) / 60000) := by
  have h := c10_pair_reassigned_from_price
    ⟨fun _ => "SDK/PAIR", fun _ => none, []⟩ [("BTC/USD", 61000, 3)]
    ⟨0, 2, 10, 100, true, 60000, 0, 0⟩
  exact ⟨h.2.1 (by norm_num), h.2.2.2.2.2.2 61000 3 (by norm_num
    [correct_pair_name, List.lookup])⟩

/-- Lowercasing a hex digit never yields `x` or a sign character. -/
theorem toLower_hex (c : Char) (hc : c ∈ HEX_DIGITS) :
    Char.toLower c ≠ 'x' ∧ Char.toLower c ≠ '+' ∧ Char.toLower c ≠ '-' := by
  have h : ∀ x ∈ HEX_DIGITS,
      Char.toLower x ≠ 'x' ∧ Char.toLower x ≠ '+' ∧ Char.toLower x ≠ '-' := by
    decide
  exact h c hc

/-- `replace` leaves a string without `x` untouched when the pattern is
`0x`. -/
theorem replaceList_no_x (l rep : List Char) (hx : 'x' ∉ l) :
    replaceList l ['0', 'x'] rep = l := by
  induction l with
  | nil => simp [replaceList]
  | cons c rest ih =>
      rw [replaceList]
      rw [dif_neg]
      · rw [ih (fun hm => hx (List.mem_cons_of_mem c hm))]
      · rintro ⟨-, hpre⟩
        cases rest with
        | nil => simp [List.isPrefixOf] at hpre
        | cons d rest2 =>
            simp [List.isPrefixOf] at hpre
            exact hx (by simp only [List.mem_cons]; exact Or.inr (Or.inl hpre.2))

/-- `replace("0x", "")` strips exactly the leading `0x` from a string
whose remainder contains no `x`. -/
theorem replaceList_strip (body : List Char) (hx : 'x' ∉ body) :
    replaceList ('0' :: 'x' :: body) ['0', 'x'] [] = body := by
  rw [replaceList]
  rw [dif_pos (by simp [List.isPrefixOf])]
  simpa using replaceList_no_x body [] hx

/-- C7: for every spender address (`0x` + 40 hex chars), the approval
encoding is the selector `0x095ea7b3`, then the spender left-padded to
32 bytes, then max-uint256 as 32 bytes — 138 hex chars after the `0x`
prefix, i.e. exactly 68 bytes of calldata — and the approval transaction
has the USDC contract as recipient and zero native value. -/
theorem c7_approval_calldata (chain_id : ℕ) (spender : String)
    (body : List Char)
    (hs : spender.data = '0' :: 'x' :: body)
    (hlen : body.length = 40)
    (hhex : ∀ c ∈ body, c ∈ HEX_DIGITS) :
    (build_usdc_approval_tx chain_id spender).data.data
        = APPROVE_SELECTOR.data ++ (List.replicate 24 '0'
            ++ body.map Char.toLower) ++ MAX_UINT256.data ∧
    (build_usdc_approval_tx chain_id spender).data.length = 138 ∧
    ((build_usdc_approval_tx chain_id spender).data.length - 2) / 2 = 68 ∧
    (build_usdc_approval_tx chain_id spender).to = USDC_ADDRESS ∧
    (build_usdc_approval_tx chain_id spender).value = 0 := by
  have hlow : (pyLower spender).data
      = '0' :: 'x' :: body.map Char.toLower := by
    show spender.data.map Char.toLower = _
    rw [hs]
    rfl
  have hx : 'x' ∉ body.map Char.toLower := by
    intro hm
    obtain ⟨c, hc, he⟩ := List.mem_map.mp hm
    exact (toLower_hex c (hhex c hc)).1 he
  have hrep : (pyReplace (pyLower spender) "0x" "").data
      = body.map Char.toLower := by
    show replaceList (pyLower spender).data ['0', 'x'] [] = _
    rw [hlow]
    exact replaceList_strip _ hx
  have hrlen : (pyReplace (pyLower spender) "0x" "").length = 40 := by
    show (pyReplace (pyLower spender) "0x" "").data.length = 40
    rw [hrep]
    simp [hlen]
  obtain ⟨c0, body', rfl⟩ : ∃ c0 body', body = c0 :: body' := by
    cases body with
    | nil => simp at hlen
    | cons a l => exact ⟨a, l, rfl⟩
  have hsign := toLower_hex c0 (hhex c0 (by simp))
  have hzf : (pyZfill (pyReplace (pyLower spender) "0x" "") 64).data
      = List.replicate 24 '0' ++ (c0 :: body').map Char.toLower := by
    rw [pyZfill, if_neg (by rw [hrlen]; norm_num), hrlen]
    have hd : (pyReplace (pyLower spender) "0x" "").data
        = Char.toLower c0 :: body'.map Char.toLower := hrep
    rw [hd]
    dsimp only
    rw [if_neg (show ¬ (Char.toLower c0 = '+' ∨ Char.toLower c0 = '-') by
      rintro (h | h)
      exacts [hsign.2.1 h, hsign.2.2 h])]
    norm_num
  have hdata : (build_usdc_approval_tx chain_id spender).data.data
      = APPROVE_SELECTOR.data
        ++ (pyZfill (pyReplace (pyLower spender) "0x" "") 64).data
        ++ MAX_UINT256.data := by
    show (APPROVE_SELECTOR
        ++ pyZfill (pyReplace (pyLower spender) "0x" "") 64
        ++ MAX_UINT256).data = _
    rw [String.data_append, String.data_append]
  refine ⟨?_, ?_, ?_, rfl, rfl⟩
  · rw [hdata, hzf]
  · show (build_usdc_approval_tx chain_id spender).data.data.length = 138
    rw [hdata, hzf]
    simp at hlen
    simp [APPROVE_SELECTOR, MAX_UINT256, hlen]
  · show ((build_usdc_approval_tx chain_id spender).data.data.length - 2) / 2
        = 68
    rw [hdata, hzf]
    simp at hlen
    simp [APPROVE_SELECTOR, MAX_UINT256, hlen]

/-- Witness for C7 at a concrete 0xABCD… spender address. -/
theorem c7_approval_calldata_witness :
    (build_usdc_approval_tx 8453
        "0xABCDABCDABCDABCDABCDABCDABCDABCDABCDABCD").data.length = 138 ∧
    ((build_usdc_approval_tx 8453
        "0xABCDABCDABCDABCDABCDABCDABCDABCDABCDABCD").data.length - 2) / 2
      = 68 ∧
    (build_usdc_approval_tx 8453
        "0xABCDABCDABCDABCDABCDABCDABCDABCDABCDABCD").to = USDC_ADDRESS ∧
    (build_usdc_approval_tx 8453
        "0xABCDABCDABCDABCDABCDABCDABCDABCDABCDABCD").value = 0 := by
  have h := c7_approval_calldata 8453
    "0xABCDABCDABCDABCDABCDABCDABCDABCDABCDABCD"
    ("ABCDABCDABCDABCDABCDABCDABCDABCDABCDABCD".data) rfl (by decide)
    (by decide)
  exact ⟨h.2.1, h.2.2.1, h.2.2.2.1, h.2.2.2.2⟩
